import Mathlib

/-!
Verification development for the UI5 Inspector Prompt-API channel core.

The definitions below are a shallow embedding of
- `app/scripts/modules/ai/AISessionManager.js` (the channel client), and
- `app/scripts/background/main.js` (the channel server / background script).

Client side, the interesting object is the ad-hoc async generator built by
`promptStreaming`: we model it as a small-step machine over the generator's
suspension points, driven by the events that can interleave with it
(arrival of a `chunk` / `complete` / `error` port message, and a consumer
pull of the async iterator).  Server side, each request handler of
`main.js` becomes a function from server state (session handle, live
handle bookkeeping) and a provider outcome to the new state plus the list
of messages posted on the port.  Abort-controller lifetime, which is
inherently about overlapping handler executions, gets its own small
interleaving model at the end.
-/

namespace UI5Inspector

/-! ## Client: the `promptStreaming` async-generator machine

`AISessionManager.prototype.promptStreaming` (AISessionManager.js:262-380)
builds an async iterable whose generator body

  * on its first pull registers `streamHandlers.onChunk/onComplete/onError`
    (before that, the outer port handlers see `streamHandlers.onChunk === null`
    and drop the message);
  * loops `while (!isComplete && !error)`, taking a chunk from the
    `chunkPromises` buffer if non-empty, else suspending on a fresh promise
    whose `resolveChunk`/`rejectChunk` the handlers fire;
  * skips falsy chunks (`if (chunk) yield chunk`), breaks on `{done:true}`,
    and after the loop throws `error` if set.

The outer `chunk`/`complete`/`error` port handlers are deregistered
(`this._off`) as soon as `complete` or `error` arrives.

Generator suspension points: -/

inductive GenPos
  /-- the generator body has not been pulled yet; `streamHandlers.*` are null -/
  | notStarted
  /-- suspended in `await new Promise(...)`: `resolveChunk`/`rejectChunk` set -/
  | awaitingChunk
  /-- suspended at `yield chunk`, waiting for the consumer's next pull -/
  | atYield
  /-- the generator returned normally (sequence ended) -/
  | finished
  /-- the generator terminated with a thrown error -/
  | threw
deriving DecidableEq, Repr

/-- State of one `promptStreaming` call on the client.  `delivered` and
`arrived` are ghost fields recording, respectively, every chunk payload that
reached the inner `chunkHandler`, and every chunk payload carried by a
`chunk` port message at all. -/
structure CliState where
  pos : GenPos
  /-- outer port handlers for chunk/complete/error are registered
      (set on call, cleared when `complete` or `error` arrives) -/
  handlersOn : Bool
  /-- the `chunkPromises` array (every element is an already-resolved
      promise of the message's `content`, so we keep the contents) -/
  buffer : List String
  isComplete : Bool
  error : Option String
  /-- fragments yielded to the consumer so far, in yield order -/
  yielded : List String
  /-- ghost: payloads that reached the inner `chunkHandler` -/
  delivered : List String
  /-- ghost: payloads of all `chunk` messages that arrived -/
  arrived : List String
deriving DecidableEq, Repr

/-- State right after `promptStreaming` resolved with the stream:
outer handlers registered, generator not yet pulled. -/
def initCli : CliState :=
  { pos := .notStarted, handlersOn := true, buffer := [], isComplete := false
    error := none, yielded := [], delivered := [], arrived := [] }

/-- One pass of the generator's `while` loop over the buffered chunks, run
when the generator is resumed with `isComplete = false` and `error = none`
(those flags cannot change while the generator runs, since handler code and
generator code are interleaved only at suspension points).  Returns the
remaining buffer, the updated `yielded` list and the next suspension point:
the loop shifts buffered chunks, skipping falsy (empty) ones, until it
either yields a truthy chunk or empties the buffer and suspends on a fresh
promise. -/
def drainB : List String → List String → List String × List String × GenPos
  | [], ys => ([], ys, .awaitingChunk)
  | c :: r, ys => if c = "" then drainB r ys else (r, ys ++ [c], .atYield)

/-- Resume the generator at the top of its `while (!isComplete && !error)`
loop: if a terminal flag is set the loop exits and the trailing
`if (error) throw error` runs; otherwise the buffer is drained. -/
def drain (st : CliState) : CliState :=
  if st.isComplete || st.error.isSome then
    { st with pos := if st.error.isSome then .threw else .finished }
  else
    match drainB st.buffer st.yielded with
    | (b, ys, p) => { st with buffer := b, yielded := ys, pos := p }

/-- Events that can interleave with the generator: arrival of a port
message of type `chunk`, `complete` or `error`, and a consumer pull
(`next()` on the async iterator). -/
inductive CEv
  | chunk (content : String)
  | complete
  | errorMsg (message : String)
  | pull
deriving DecidableEq, Repr

/-- Small-step semantics of one `promptStreaming` call, transcribed from
AISessionManager.js:279-378.

* `chunk` message: the outer handler forwards to `streamHandlers.onChunk`
  when set.  Before the first pull the inner handler is null, so the
  payload is dropped.  If the generator is awaiting, `resolveChunk` fires
  and the generator resumes with the payload: a truthy (non-empty) string
  is yielded, a falsy one sends the loop back to its top.  Otherwise the
  payload is pushed onto `chunkPromises`.
* `complete` message: sets `isComplete` via the inner handler (when
  registered) and resolves a pending pull with `{done:true}`, which makes
  the generator break out of its loop; then the outer handlers are
  deregistered.
* `error` message: sets `error` via the inner handler (when registered) and
  rejects a pending pull, which makes the `await` throw; then the outer
  handlers are deregistered.
* `pull`: the first pull starts the generator body (registering the inner
  handlers); a pull while suspended at `yield` resumes the loop. -/
def stepCli (st : CliState) : CEv → CliState
  | .chunk s =>
    let st := { st with arrived := st.arrived ++ [s] }
    if !st.handlersOn then st
    else match st.pos with
      | .notStarted => st
      | .awaitingChunk =>
          let st := { st with delivered := st.delivered ++ [s] }
          if s = "" then drain st
          else { st with yielded := st.yielded ++ [s], pos := .atYield }
      | _ => { st with buffer := st.buffer ++ [s], delivered := st.delivered ++ [s] }
  | .complete =>
    if !st.handlersOn then st
    else
      let st := { st with handlersOn := false }
      match st.pos with
      | .notStarted => st
      | .awaitingChunk =>
          { st with isComplete := true
                    pos := if st.error.isSome then .threw else .finished }
      | _ => { st with isComplete := true }
  | .errorMsg m =>
    if !st.handlersOn then st
    else
      let st := { st with handlersOn := false }
      match st.pos with
      | .notStarted => st
      | .awaitingChunk => { st with error := some m, pos := .threw }
      | _ => { st with error := some m }
  | .pull =>
    match st.pos with
    | .notStarted => drain st
    | .atYield => drain st
    | _ => st

/-- Run one `promptStreaming` call against a whole event trace. -/
def runCli (tr : List CEv) : CliState :=
  tr.foldl stepCli initCli

/-- Concatenation of a list of fragments, in order. -/
def sConcat (l : List String) : String :=
  l.foldl (fun a b => a ++ b) ""

/-! ## Client: `promptStreaming` precondition (AISessionManager.js:262-269)

`promptStreaming` first calls `this._connect()` (which opens the port but
sends no request message), then checks `this._hasActiveSession` and rejects
before building the message array or calling `this._send`.  We model one
call as a function from the active-session flag and the built turn sequence
to the promise outcome together with the list of request messages the call
sent over the port. -/

/-- One role-tagged conversation turn. -/
structure Turn where
  role : String
  content : String
deriving DecidableEq, Repr

/-- Request envelopes the client can post on the port (`this._send`). -/
inductive ReqMsg
  | checkAvailability
  | downloadModel
  | createSession
  | promptStreaming (messages : List Turn)
  | getUsageInfo
  | destroySession
deriving DecidableEq, Repr

/-- `AISessionManager.prototype.promptStreaming`, observed at the channel:
result of the returned promise (the resolved stream is represented by the
turn sequence it was started with) and the request messages sent for this
call. -/
def promptStreamingClient (hasActiveSession : Bool) (messages : List Turn) :
    Except String (List Turn) × List ReqMsg :=
  if !hasActiveSession then
    (.error "No active session. Call createSession() first.", [])
  else
    (.ok messages, [.promptStreaming messages])

end UI5Inspector

namespace UI5Inspector

/-! ## Client-side theorems -/

/-- A trace in which the consumer pulls once, two chunks arrive while it is
between pulls (the first resolves the pending pull, the second is buffered
in `chunkPromises`), `complete` arrives, and the consumer pulls again. -/
def trDrop : List CEv :=
  [.pull, .chunk "a", .chunk "b", .complete, .pull]

/-- C1: evaluation of the code at the failing trace `trDrop`.  The claim
says the concatenation of the yielded fragments always equals the
concatenation of the arrived chunk payloads; here the generator, resumed
after `complete` arrived while "b" was still buffered, exits its
`while (!isComplete && !error)` loop without draining the buffer, so only
"a" is ever yielded and the buffered fragment is dropped. -/
theorem promptStreaming_drops_buffered_chunk_on_complete :
    (runCli trDrop).yielded = ["a"] ∧ (runCli trDrop).arrived = ["a", "b"] ∧
      (runCli trDrop).pos = .finished ∧ (runCli trDrop).buffer = ["b"] ∧
      sConcat (runCli trDrop).yielded ≠ sConcat (runCli trDrop).arrived := by
  decide

/-- Fragments already yielded are all non-empty. -/
def NoEmptyYield (st : CliState) : Prop :=
  ∀ s ∈ st.yielded, s ≠ ""

theorem drainB_noEmpty (b : List String) (ys : List String)
    (h : ∀ s ∈ ys, s ≠ "") : ∀ s ∈ (drainB b ys).2.1, s ≠ "" := by
  induction b generalizing ys with
  | nil => simpa [drainB] using h
  | cons c r ih =>
      by_cases hc : c = ""
      · simpa [drainB, hc] using ih ys h
      · intro s hs
        simp only [drainB, if_neg hc] at hs
        rcases List.mem_append.mp hs with h1 | h1
        · exact h s h1
        · simp only [List.mem_singleton] at h1
          simpa [h1] using hc

theorem drain_noEmpty (st : CliState) (h : NoEmptyYield st) :
    NoEmptyYield (drain st) := by
  unfold drain
  split
  · exact h
  · exact drainB_noEmpty st.buffer st.yielded h

theorem stepCli_noEmpty (st : CliState) (e : CEv) (h : NoEmptyYield st) :
    NoEmptyYield (stepCli st e) := by
  cases e with
  | chunk s =>
      simp only [stepCli]
      split
      · exact h
      · split
        · exact h
        · by_cases hs : s = ""
          · simp only [if_pos hs]
            exact drain_noEmpty _ h
          · simp only [if_neg hs]
            intro x hx
            rcases List.mem_append.mp hx with h1 | h1
            · exact h x h1
            · simp only [List.mem_singleton] at h1
              simpa [h1] using hs
        · exact h
  | complete =>
      simp only [stepCli]
      split
      · exact h
      · split <;> exact h
  | errorMsg m =>
      simp only [stepCli]
      split
      · exact h
      · split <;> exact h
  | pull =>
      simp only [stepCli]
      split
      · exact drain_noEmpty _ h
      · exact drain_noEmpty _ h
      · exact h

/-- C9: the async sequence returned by `promptStreaming` never yields an
empty-string (falsy) fragment, whatever the trace of chunk arrivals,
terminal messages and consumer pulls: a `chunk` message whose content is
empty is skipped by the consumer loop (`if (chunk) yield chunk`) rather
than yielded. -/
theorem promptStreaming_never_yields_empty (tr : List CEv) :
    ∀ s ∈ (runCli tr).yielded, s ≠ "" := by
  suffices h : ∀ st, NoEmptyYield st → NoEmptyYield (tr.foldl stepCli st) by
    exact h initCli (by intro s hs; simp [initCli] at hs)
  induction tr with
  | nil => intro st h; simpa using h
  | cons e r ih =>
      intro st h
      exact ih (stepCli st e) (stepCli_noEmpty st e h)

theorem promptStreaming_never_yields_empty_witness :
    ("x" ∈ (runCli [.pull, .chunk "x"]).yielded) ∧ "x" ≠ "" :=
  ⟨by decide,
   promptStreaming_never_yields_empty [.pull, .chunk "x"] "x" (by decide)⟩

/-- C2: a `promptStreaming` call made while the active-session flag is
false rejects with the precondition error and sends no request message of
any type over the channel. -/
theorem promptStreaming_requires_active_session (messages : List Turn) :
    promptStreamingClient false messages =
      (.error "No active session. Call createSession() first.", []) := by
  rfl

/-! ## Server: background script handlers (background/main.js:158-449)

Server state: `promptAPISession` (the single model-session handle) plus
bookkeeping.  To reason about the "at most one live handle" invariant we
give each handle created by `self.LanguageModel.create` a fresh id and keep
the ghost list `live` of the ids of handles that have been created and
whose `destroy()` has not been called.  `supported` models
`isPromptAPISupported()` (`'LanguageModel' in self`), constant per run.

Provider outcomes (availability value, session-creation success/failure
with the new handle's `inputUsage`/`inputQuota` fields, fragments produced
by a streaming call, ...) are inputs of the handlers: the handlers are
total functions of state and provider behaviour.  The abort-controller
field is modelled separately at the end of the file, since its lifetime is
only interesting under overlapping handler executions. -/

/-- Payload of a `usage-info` message. -/
structure UsageData where
  inputUsage : Nat
  inputQuota : Nat
  percentUsed : Nat
deriving DecidableEq, Repr

/-- Messages the server posts on the port (`port.postMessage`).  A
download-progress payload is the provider's `e.loaded` value, opaque here. -/
inductive SMsg
  | availability (status : String) (message : String)
  | downloadProgress (progress : Nat)
  | downloadComplete
  | sessionCreated
  | chunk (content : String)
  | complete
  | usageInfo (data : Option UsageData)
  | sessionDestroyed
  | error (message : String)
deriving DecidableEq, Repr

/-- A model-session handle as returned by `LanguageModel.create`: its ghost
id plus the `inputUsage`/`inputQuota` fields read by `get-usage-info`
(`none` models an absent/undefined field). -/
structure Handle where
  id : Nat
  inputUsage : Option Nat
  inputQuota : Option Nat
deriving DecidableEq, Repr

/-- Server-side state: `isPromptAPISupported()`, the `promptAPISession`
variable, the ghost list of live (created, not destroyed) handle ids, and
the next fresh handle id. -/
structure SrvState where
  supported : Bool
  session : Option Handle
  live : List Nat
  nextId : Nat
deriving DecidableEq, Repr

/-- Initial server state (supported platform, no session). -/
def initSrv : SrvState := ⟨true, none, [], 0⟩

/-- JavaScript `x || d` on an optional number: `undefined` and `0` are
falsy and give the default. -/
def jsOr (o : Option Nat) (d : Nat) : Nat :=
  match o with
  | some (n + 1) => n + 1
  | _ => d

/-- `Math.round (num / den)` for non-negative arguments: round half up,
i.e. `⌊num/den + 1/2⌋ = ⌊(2·num + den) / (2·den)⌋`. -/
def mathRound (num den : Nat) : Nat :=
  (2 * num + den) / (2 * den)

/-- The status/message pair `handleCheckAvailability` computes from the
value returned by `self.LanguageModel.availability()`
(background/main.js:215-232). -/
def availabilityStatus (a : String) : String × String :=
  if a = "available" then
    ("ready", "Gemini Nano is ready to use")
  else if a = "downloadable" then
    ("needs-download", "Gemini Nano needs to be downloaded (~22GB)")
  else if a = "downloading" then
    ("downloading", "Gemini Nano is currently downloading")
  else if a = "unavailable" then
    ("unavailable", "Gemini Nano is not available on this device")
  else
    ("unavailable", "Gemini Nano status unknown. Availability returned: \"" ++ a ++ "\"")

/-- `handleCheckAvailability` (background/main.js:201-247).  The provider's
availability query either returns a string or throws; a throw is caught
and reported as an `availability` message with status `error`.  The state
is untouched, so only the posted messages are returned. -/
def handleCheckAvailability (supported : Bool) (res : Except String String) :
    List SMsg :=
  if !supported then
    [.availability "unavailable" "Prompt API not supported - LanguageModel not found in self"]
  else
    match res with
    | .ok a => [.availability (availabilityStatus a).1 (availabilityStatus a).2]
    | .error e => [.availability "error" ("Error: " ++ e)]

/-- `handleDownloadModel` (background/main.js:252-290).  The provider call
`initPromptAPISession` either succeeds - emitting each `downloadprogress`
value through the monitor callback, then returning a fresh handle with the
given usage/quota fields - or throws after emitting the progress values.
On success the fresh handle is assigned to `promptAPISession` WITHOUT
destroying the previous one (the source has no `destroy()` on this path),
so a previously live handle stays live but unreferenced. -/
def handleDownloadModel (st : SrvState) (progress : List Nat)
    (res : Except String (Option Nat × Option Nat)) : SrvState × List SMsg :=
  if !st.supported then
    (st, [.error "Prompt API not supported"])
  else
    match res with
    | .ok (u, q) =>
        ({ st with session := some ⟨st.nextId, u, q⟩
                   live := st.nextId :: st.live
                   nextId := st.nextId + 1 },
         progress.map .downloadProgress ++ [.downloadComplete])
    | .error e =>
        (st, progress.map .downloadProgress ++ [.error e])

/-- `handleCreateSession` (background/main.js:295-324).  Inside the `try`,
any pre-existing session handle is destroyed first; then the provider
either returns a fresh handle (emit `session-created`) or throws (emit
`error`) - in the latter case the old session has already been destroyed
and is not restored. -/
def handleCreateSession (st : SrvState)
    (res : Except String (Option Nat × Option Nat)) : SrvState × List SMsg :=
  if !st.supported then
    (st, [.error "Prompt API not supported"])
  else
    let st1 := match st.session with
      | some h => { st with session := none, live := st.live.erase h.id }
      | none => st
    match res with
    | .ok (u, q) =>
        ({ st1 with session := some ⟨st1.nextId, u, q⟩
                    live := st1.nextId :: st1.live
                    nextId := st1.nextId + 1 },
         [.sessionCreated])
    | .error e => (st1, [.error e])

/-- V8's message of the TypeError thrown when the loop guard evaluates
`promptAPIController.signal` while the shared variable is null; the
handler's `catch` posts it as the `error` message. -/
def nullSignalMsg : String := "Cannot read properties of null (reading 'signal')"

/-- Messages posted by the streaming loop of `handlePromptStreaming`
(background/main.js:351-366).  `frags` are the fragments the provider's
stream delivers to the loop before it ends (normally, or by throwing
`providerErr` while the loop awaits the next fragment).

Both guards - `if (promptAPIController.signal.aborted) break;` inside the
loop and `if (!promptAPIController.signal.aborted)` before `complete` -
re-read the shared module variable `promptAPIController`, NOT a controller
captured by this handler run.  `obs i` is what the i-th guard read
observes in that variable: `some b` when it holds a controller whose
`signal.aborted` is `b`, `none` when it is null (then reading `.signal`
throws a TypeError, caught and posted as `error`).  Guard reads are
numbered in execution order: one before posting each fragment, plus - when
the stream ends normally - the final read guarding `complete`.  A `break`
falls through to the final guard synchronously, so that read sees the same
(aborted) controller and posts nothing; a provider throw is caught and
posted as `error`. -/
def streamLoop (obs : Nat → Option Bool) (providerErr : Option String) :
    Nat → List String → List SMsg
  | i, c :: rest =>
      match obs i with
      | none => [.error nullSignalMsg]
      | some true => []
      | some false => .chunk c :: streamLoop obs providerErr (i + 1) rest
  | i, [] =>
      match providerErr with
      | some m => [.error m]
      | none =>
          match obs i with
          | none => [.error nullSignalMsg]
          | some true => []
          | some false => [.complete]

/-- `handlePromptStreaming` (background/main.js:329-376): with no session
handle it posts a single `error` ("No active session"); otherwise it runs
the streaming loop.  The session variable is untouched either way. -/
def handlePromptStreaming (st : SrvState) (frags : List String)
    (obs : Nat → Option Bool) (providerErr : Option String) :
    SrvState × List SMsg :=
  match st.session with
  | none => (st, [.error "No active session"])
  | some _ => (st, streamLoop obs providerErr 0 frags)

/-- `handleGetUsageInfo` (background/main.js:381-402): posts
`{data: null}` without a session, else substitutes `|| 0` / `|| 4096`
defaults for the handle's fields and computes
`Math.round((inputUsage / inputQuota) * 100)`. -/
def handleGetUsageInfo (st : SrvState) : List SMsg :=
  match st.session with
  | none => [.usageInfo none]
  | some h =>
      let inputUsage := jsOr h.inputUsage 0
      let inputQuota := jsOr h.inputQuota 4096
      [.usageInfo (some ⟨inputUsage, inputQuota, mathRound (100 * inputUsage) inputQuota⟩)]

/-- `handleDestroySession` (background/main.js:407-421): destroys the
session handle if present (the controller abort it also performs lives in
the controller model below) and posts `session-destroyed` unconditionally. -/
def handleDestroySession (st : SrvState) : SrvState × List SMsg :=
  let st1 := match st.session with
    | some h => { st with session := none, live := st.live.erase h.id }
    | none => st
  (st1, [.sessionDestroyed])

instance {α β : Type} [DecidableEq α] [DecidableEq β] : DecidableEq (Except α β) :=
  fun a b =>
    match a, b with
    | .ok x, .ok y =>
        if h : x = y then .isTrue (by rw [h]) else .isFalse (by simp [h])
    | .error x, .error y =>
        if h : x = y then .isTrue (by rw [h]) else .isFalse (by simp [h])
    | .ok _, .error _ => .isFalse (by simp)
    | .error _, .ok _ => .isFalse (by simp)

/-- One incoming request, bundled with the provider behaviour and
shared-variable observations its handler will see (the `onConnect`
dispatch, background/main.js:424-449). -/
inductive Req
  | checkAvailability (res : Except String String)
  | downloadModel (progress : List Nat) (res : Except String (Option Nat × Option Nat))
  | createSession (res : Except String (Option Nat × Option Nat))
  | promptStreaming (frags : List String) (obs : Nat → Option Bool) (providerErr : Option String)
  | getUsageInfo
  | destroySession

/-- Dispatch one request to its handler (run to completion). -/
def stepSrv (st : SrvState) : Req → SrvState × List SMsg
  | .checkAvailability res => (st, handleCheckAvailability st.supported res)
  | .downloadModel p res => handleDownloadModel st p res
  | .createSession res => handleCreateSession st res
  | .promptStreaming f a e => handlePromptStreaming st f a e
  | .getUsageInfo => (st, handleGetUsageInfo st)
  | .destroySession => handleDestroySession st

/-- Run a sequence of requests, each handler running to completion. -/
def runSrv (st : SrvState) (l : List Req) : SrvState :=
  l.foldl (fun s r => (stepSrv s r).1) st

/-! ## Server-side theorems -/

/-- The four availability values `handleCheckAvailability` recognizes. -/
def knownAvail : List String := ["available", "downloadable", "downloading", "unavailable"]

/-- The statuses an `availability` message may carry. -/
def allowedStatuses : List String :=
  ["ready", "needs-download", "downloading", "unavailable", "error"]

/-- C6: the availability mapping is total - for every platform-support
value and every provider outcome (returned string or thrown failure) the
handler posts exactly one `availability` message whose status is one of
the five statuses; any unrecognized provider value maps to `unavailable`
with an explanatory message naming the value, and a thrown failure maps to
status `error`, never a thrown failure of the handler. -/
theorem checkAvailability_mapping_total :
    (∀ (sup : Bool) (res : Except String String), ∃ s m,
        handleCheckAvailability sup res = [.availability s m] ∧
          s ∈ allowedStatuses) ∧
    (∀ a, a ∉ knownAvail →
        handleCheckAvailability true (.ok a) =
          [.availability "unavailable"
            ("Gemini Nano status unknown. Availability returned: \"" ++ a ++ "\"")]) ∧
    (∀ e, handleCheckAvailability true (.error e) =
        [.availability "error" ("Error: " ++ e)]) := by
  refine ⟨?_, ?_, ?_⟩
  · intro sup res
    cases sup with
    | false => exact ⟨"unavailable", _, rfl, by decide⟩
    | true =>
        cases res with
        | error e => exact ⟨"error", _, rfl, by decide⟩
        | ok a =>
            refine ⟨(availabilityStatus a).1, (availabilityStatus a).2, rfl, ?_⟩
            unfold availabilityStatus
            split_ifs <;> simp [allowedStatuses]
  · intro a ha
    simp only [knownAvail, List.mem_cons, List.not_mem_nil, or_false,
      not_or] at ha
    obtain ⟨h1, h2, h3, h4⟩ := ha
    simp [handleCheckAvailability, availabilityStatus, h1, h2, h3, h4]
  · intro e
    rfl

theorem checkAvailability_mapping_total_witness :
    ("weird" ∉ knownAvail) ∧
      handleCheckAvailability true (.ok "weird") =
        [.availability "unavailable"
          ("Gemini Nano status unknown. Availability returned: \"" ++ "weird" ++ "\"")] :=
  ⟨by decide, checkAvailability_mapping_total.2.1 "weird" (by decide)⟩

theorem jsOr_pos (o : Option Nat) (d : Nat) (hd : 0 < d) : 0 < jsOr o d := by
  rcases o with _ | n
  · exact hd
  · cases n with
    | zero => exact hd
    | succ n => exact Nat.succ_pos n

theorem jsOr_falsy (o : Option Nat) (d : Nat)
    (h : o = none ∨ o = some 0) : jsOr o d = d := by
  rcases h with h | h <;> rw [h] <;> rfl

/-- C7: `get-usage-info` posts `{data: null}` when no session handle
exists, and otherwise `{inputUsage, inputQuota, percentUsed}` with
`percentUsed = round(100 * inputUsage / inputQuota)`; in particular
`inputUsage = 410` and `inputQuota = 4096` give `percentUsed = 10`. -/
theorem getUsageInfo_formula :
    (∀ st : SrvState, st.session = none →
        handleGetUsageInfo st = [.usageInfo none]) ∧
    (∀ (st : SrvState) (h : Handle), st.session = some h → ∃ u q,
        handleGetUsageInfo st =
          [.usageInfo (some ⟨u, q, mathRound (100 * u) q⟩)]) ∧
    handleGetUsageInfo ⟨true, some ⟨0, some 410, some 4096⟩, [0], 1⟩ =
      [.usageInfo (some ⟨410, 4096, 10⟩)] := by
  refine ⟨?_, ?_, by decide⟩
  · intro st hs
    simp [handleGetUsageInfo, hs]
  · intro st h hs
    exact ⟨jsOr h.inputUsage 0, jsOr h.inputQuota 4096,
      by simp [handleGetUsageInfo, hs]⟩

theorem getUsageInfo_formula_witness :
    handleGetUsageInfo initSrv = [.usageInfo none] ∧
      ∃ u q, handleGetUsageInfo ⟨true, some ⟨0, some 410, some 4096⟩, [0], 1⟩ =
        [.usageInfo (some ⟨u, q, mathRound (100 * u) q⟩)] :=
  ⟨getUsageInfo_formula.1 initSrv rfl,
   getUsageInfo_formula.2.1 _ ⟨0, some 410, some 4096⟩ rfl⟩

/-- C10: with a session handle present, falsy handle fields are replaced
by defaults before the computation: absent-or-zero `inputUsage` is
reported as 0, absent-or-zero `inputQuota` as 4096, so the posted quota is
never zero and `percentUsed` is computed with a non-zero divisor. -/
theorem getUsageInfo_defaults (st : SrvState) (h : Handle)
    (hs : st.session = some h) :
    ∃ u q, handleGetUsageInfo st =
        [.usageInfo (some ⟨u, q, mathRound (100 * u) q⟩)] ∧
      0 < q ∧ u = jsOr h.inputUsage 0 ∧ q = jsOr h.inputQuota 4096 ∧
      (h.inputUsage = none ∨ h.inputUsage = some 0 → u = 0) ∧
      (h.inputQuota = none ∨ h.inputQuota = some 0 → q = 4096) := by
  refine ⟨jsOr h.inputUsage 0, jsOr h.inputQuota 4096,
    by simp [handleGetUsageInfo, hs], jsOr_pos _ _ (by decide), rfl, rfl,
    fun hf => jsOr_falsy _ _ hf, fun hf => jsOr_falsy _ _ hf⟩

theorem getUsageInfo_defaults_witness :
    ∃ u q, handleGetUsageInfo ⟨true, some ⟨0, none, some 0⟩, [0], 1⟩ =
        [.usageInfo (some ⟨u, q, mathRound (100 * u) q⟩)] ∧
      0 < q ∧ u = jsOr (none : Option Nat) 0 ∧ q = jsOr (some 0) 4096 ∧
      ((none : Option Nat) = none ∨ (none : Option Nat) = some 0 → u = 0) ∧
      ((some 0 : Option Nat) = none ∨ (some 0 : Option Nat) = some 0 → q = 4096) :=
  getUsageInfo_defaults _ ⟨0, none, some 0⟩ rfl

/-- C8: if the provider call of `create-session` fails after the
pre-existing session handle has been destroyed, the handler posts `error`
and the server is left with no session handle at all - the old session is
not restored (the failing run is not atomic with respect to session
state). -/
theorem createSession_failure_not_atomic (st : SrvState) (h : Handle)
    (e : String) (hsup : st.supported = true) (hs : st.session = some h)
    (hl : st.live = [h.id]) :
    (handleCreateSession st (.error e)).1.session = none ∧
      (handleCreateSession st (.error e)).1.live = [] ∧
      (handleCreateSession st (.error e)).2 = [.error e] := by
  simp [handleCreateSession, hsup, hs, hl]

theorem createSession_failure_not_atomic_witness :
    (handleCreateSession ⟨true, some ⟨5, none, none⟩, [5], 6⟩ (.error "boom")).1.session = none ∧
      (handleCreateSession ⟨true, some ⟨5, none, none⟩, [5], 6⟩ (.error "boom")).1.live = [] ∧
      (handleCreateSession ⟨true, some ⟨5, none, none⟩, [5], 6⟩ (.error "boom")).2 =
        [.error "boom"] :=
  createSession_failure_not_atomic _ ⟨5, none, none⟩ "boom" rfl rfl rfl

/-- A create-session followed by a successful download-model: the
download handler overwrites `promptAPISession` without destroying the
previous handle. -/
def trLeak : List Req :=
  [.createSession (.ok (none, none)), .downloadModel [] (.ok (none, none))]

/-- C4, counterexample: after the trace `trLeak` two handles have been
created and neither has been destroyed, so the at-most-one-live-handle
invariant does not hold after every handler of every request type. -/
theorem downloadModel_breaks_single_handle_invariant :
    (runSrv initSrv trLeak).live.length = 2 ∧
      ¬ (runSrv initSrv trLeak).live.length ≤ 1 := by
  decide

/-- The single-handle invariant: the live handles are exactly the one the
`promptAPISession` variable references (none when it is null). -/
def SessionInv (st : SrvState) : Prop :=
  st.live = (match st.session with | some h => [h.id] | none => [])

/-- A request is benign for the single-handle invariant unless it is a
download-model whose provider call succeeds while a session handle
exists. -/
def DlOk (st : SrvState) : Req → Prop
  | .downloadModel _ (.ok _) => st.session = none
  | _ => True

/-- C4, amended: every successful create-session run destroys the
pre-existing handle before creating the new one, and the
at-most-one-live-handle invariant is preserved by every handler - except
that a download-model run whose provider call succeeds while a session
handle exists replaces the handle without destroying it. -/
theorem at_most_one_live_handle (st : SrvState) (r : Req)
    (hinv : SessionInv st) (hdl : DlOk st r) :
    SessionInv (stepSrv st r).1 := by
  cases r with
  | checkAvailability res => exact hinv
  | downloadModel p res =>
      by_cases hsup : st.supported
      · cases res with
        | error e =>
            simpa [stepSrv, handleDownloadModel, hsup] using hinv
        | ok uq =>
            have hs : st.session = none := hdl
            unfold SessionInv at hinv
            rw [hs] at hinv
            simp [stepSrv, handleDownloadModel, hsup, SessionInv, hinv]
      · simpa [stepSrv, handleDownloadModel, hsup] using hinv
  | createSession res =>
      by_cases hsup : st.supported
      · unfold SessionInv at hinv
        cases hsess : st.session with
        | none =>
            rw [hsess] at hinv
            cases res with
            | ok uq => simp [stepSrv, handleCreateSession, hsup, hsess, SessionInv, hinv]
            | error e => simp [stepSrv, handleCreateSession, hsup, hsess, SessionInv, hinv]
        | some h =>
            rw [hsess] at hinv
            cases res with
            | ok uq => simp [stepSrv, handleCreateSession, hsup, hsess, SessionInv, hinv]
            | error e => simp [stepSrv, handleCreateSession, hsup, hsess, SessionInv, hinv]
      · simpa [stepSrv, handleCreateSession, hsup] using hinv
  | promptStreaming f a e =>
      cases hsess : st.session with
      | none => simpa [stepSrv, handlePromptStreaming, hsess] using hinv
      | some h => simpa [stepSrv, handlePromptStreaming, hsess] using hinv
  | getUsageInfo => exact hinv
  | destroySession =>
      unfold SessionInv at hinv
      cases hsess : st.session with
      | none =>
          rw [hsess] at hinv
          simp [stepSrv, handleDestroySession, hsess, SessionInv, hinv]
      | some h =>
          rw [hsess] at hinv
          simp [stepSrv, handleDestroySession, hsess, SessionInv, hinv]

theorem at_most_one_live_handle_witness :
    SessionInv initSrv ∧ DlOk initSrv (.createSession (.ok (none, none))) ∧
      SessionInv (stepSrv initSrv (.createSession (.ok (none, none)))).1 :=
  ⟨rfl, trivial, at_most_one_live_handle initSrv _ rfl trivial⟩

/-! ## Server: abort-controller lifetime under overlapping handlers

`handleDownloadModel` and `handlePromptStreaming` are async functions that
share the module variable `promptAPIController`.  Each starts with

    if (promptAPIController) { promptAPIController.abort(); }
    promptAPIController = new AbortController();

and ends with `finally { promptAPIController = null; }` - the `finally`
assigns null unconditionally, whichever controller the variable holds at
that moment.  Because both handlers suspend at provider awaits, a second
operation can start (and replace the variable) before the first one's
`finally` runs.  We model only these two atomic phases of each cancelable
operation: its start and its `finally`.

Controllers are numbered; `aborted` lists the ids on which `abort()` was
called; `running` holds `(operation id, its controller id)` for each
operation that has started and whose `finally` has not run.  A controller
object is still reachable (live) while the module variable or a running
operation's closure references it. -/

structure CtrlWorld where
  /-- the `promptAPIController` module variable -/
  ctrlRef : Option Nat
  /-- controller ids whose `abort()` has been called -/
  aborted : List Nat
  /-- operations started and not yet past their `finally`, with the
      controller each created -/
  running : List (Nat × Nat)
  /-- next fresh controller id -/
  nextCtrl : Nat
deriving DecidableEq, Repr

def initCtrl : CtrlWorld := ⟨none, [], [], 0⟩

/-- Atomic phases of a cancelable operation `op` (a download-model or
prompt-streaming handler run): its start (abort the referenced controller
if any, create a fresh one, store it in the variable) and its `finally`
(assign null to the variable, unconditionally). -/
inductive OpEv
  | start (op : Nat)
  | finish (op : Nat)
deriving DecidableEq, Repr

def stepCtrl (w : CtrlWorld) : OpEv → CtrlWorld
  | .start op =>
      if w.running.any (fun p => p.1 == op) then w
      else
        { ctrlRef := some w.nextCtrl
          aborted := match w.ctrlRef with
            | some c => c :: w.aborted
            | none => w.aborted
          running := (op, w.nextCtrl) :: w.running
          nextCtrl := w.nextCtrl + 1 }
  | .finish op =>
      if w.running.any (fun p => p.1 == op) then
        { w with running := w.running.filter (fun p => p.1 != op), ctrlRef := none }
      else w

def runCtrl (tr : List OpEv) : CtrlWorld :=
  tr.foldl stepCtrl initCtrl

/-- Controllers still reachable: the one in the module variable plus those
held by running operations. -/
def liveCtrls (w : CtrlWorld) : List Nat :=
  ((match w.ctrlRef with | some c => [c] | none => []) ++
    w.running.map Prod.snd).dedup

/-- Reachable controllers that have not been aborted. -/
def nonAbortedLive (w : CtrlWorld) : List Nat :=
  (liveCtrls w).filter (fun c => !(w.aborted.contains c))

/-- Prompt-streaming A starts; download-model B starts (aborting A's
controller); A's loop observes the abort, breaks, and its `finally` nulls
the variable - which now holds B's controller; prompt-streaming C then
starts, finds the variable null, aborts nothing and creates its own
controller while B is still running. -/
def trRace : List OpEv := [.start 0, .start 1, .finish 0, .start 2]

/-- C5, counterexample: after `trRace` the controllers of operations 1 and
2 are both reachable and neither has been aborted, so more than one
non-aborted controller exists: the unconditional `finally` of a superseded
operation clears the new operation's controller reference, after which the
next start has nothing to abort. -/
theorem finally_race_two_nonaborted_controllers :
    (nonAbortedLive (runCtrl trRace)).length = 2 ∧
      ¬ (nonAbortedLive (runCtrl trRace)).length ≤ 1 := by
  decide

/-- A trace is sequential when every operation start happens while no
other operation is between its start and its `finally` (each handler run
to completion before the next cancelable request arrives). -/
def seqOk : CtrlWorld → List OpEv → Bool
  | _, [] => true
  | w, e :: r =>
      (match e with
       | .start _ => w.running.isEmpty
       | .finish _ => true) && seqOk (stepCtrl w e) r

/-- Invariant maintained by sequential executions: nothing was ever
aborted (the variable is always null when an operation starts) and either
nothing runs and the variable is null, or exactly one operation runs and
the variable holds its controller. -/
def CtrlInv (w : CtrlWorld) : Prop :=
  w.aborted = [] ∧
    ((w.running = [] ∧ w.ctrlRef = none) ∨
      ∃ o c, w.running = [(o, c)] ∧ w.ctrlRef = some c)

theorem stepCtrl_seq_inv (w : CtrlWorld) (e : OpEv) (hinv : CtrlInv w)
    (hseq : (match e with | .start _ => w.running.isEmpty | .finish _ => true) = true) :
    CtrlInv (stepCtrl w e) := by
  obtain ⟨hab, hcase⟩ := hinv
  cases e with
  | start op =>
      have hrun : w.running = [] := by
        simpa [List.isEmpty_iff] using hseq
      have href : w.ctrlRef = none := by
        rcases hcase with ⟨_, h⟩ | ⟨o, c, h, _⟩
        · exact h
        · rw [h] at hrun; cases hrun
      refine ⟨?_, Or.inr ⟨op, w.nextCtrl, ?_, ?_⟩⟩ <;>
        simp [stepCtrl, hrun, href, hab]
  | finish op =>
      rcases hcase with ⟨hrun, href⟩ | ⟨o, c, hrun, href⟩
      · refine ⟨?_, Or.inl ⟨?_, ?_⟩⟩ <;> simp [stepCtrl, hrun, href, hab]
      · by_cases ho : o = op
        · subst ho
          refine ⟨?_, Or.inl ⟨?_, ?_⟩⟩ <;> simp [stepCtrl, hrun, hab]
        · have hne : (o == op) = false := by
            simpa using ho
          refine ⟨?_, Or.inr ⟨o, c, ?_, ?_⟩⟩ <;>
            simp [stepCtrl, hrun, hne, href, hab]

theorem seq_run_inv (tr : List OpEv) :
    ∀ w, CtrlInv w → seqOk w tr = true → CtrlInv (tr.foldl stepCtrl w) := by
  induction tr with
  | nil => intro w h _; simpa using h
  | cons e r ih =>
      intro w h hseq
      simp only [seqOk, Bool.and_eq_true] at hseq
      exact ih (stepCtrl w e) (stepCtrl_seq_inv w e h hseq.1) hseq.2

/-- C5, amended: when every cancelable operation runs to completion before
the next one starts (no overlap), at most one non-aborted controller is
reachable at any time; each start still aborts whatever controller the
variable references before creating a fresh one, and each operation's
`finally` clears the reference unconditionally on every outcome - but
under overlap that unconditional clear can erase a newer operation's
controller reference, defeating the invariant (see the counterexample). -/
theorem at_most_one_nonaborted_controller (tr : List OpEv)
    (hseq : seqOk initCtrl tr = true) :
    (nonAbortedLive (runCtrl tr)).length ≤ 1 := by
  have hinv : CtrlInv (runCtrl tr) :=
    seq_run_inv tr initCtrl ⟨rfl, Or.inl ⟨rfl, rfl⟩⟩ hseq
  obtain ⟨hab, hcase⟩ := hinv
  rcases hcase with ⟨hrun, href⟩ | ⟨o, c, hrun, href⟩
  · simp [nonAbortedLive, liveCtrls, hrun, href]
  · have hlive : liveCtrls (runCtrl tr) = [c] := by
      simp [liveCtrls, hrun, href, List.dedup_cons_of_mem]
    calc (nonAbortedLive (runCtrl tr)).length
        ≤ (liveCtrls (runCtrl tr)).length := List.length_filter_le _ _
      _ = 1 := by rw [hlive]; rfl

theorem at_most_one_nonaborted_controller_witness :
    seqOk initCtrl [.start 0, .finish 0, .start 1] = true ∧
      (nonAbortedLive (runCtrl [.start 0, .finish 0, .start 1])).length ≤ 1 :=
  ⟨by decide, at_most_one_nonaborted_controller _ (by decide)⟩

/-! ## The abort guards of the streaming loop read the shared variable

Every `abort()` in the source is synchronously followed by reassigning
`promptAPIController`: a starting download-model or prompt-streaming
handler aborts the referenced controller and immediately installs a fresh
one (main.js:263-266, 340-343), and `handleDestroySession` aborts it and
immediately nulls it (main.js:413-416).  So at every suspension point -
hence at every guard read of the streaming loop - the shared variable
holds either a never-aborted controller or null.  The invariant below
makes this precise in the controller model, for arbitrary schedules. -/

/-- Every aborted controller id is stale (below `nextCtrl`) and the
referenced controller, if any, is fresh enough and never aborted. -/
def CtrlBound (w : CtrlWorld) : Prop :=
  (∀ c ∈ w.aborted, c < w.nextCtrl) ∧
    (∀ c, w.ctrlRef = some c → c < w.nextCtrl ∧ c ∉ w.aborted)

theorem stepCtrl_bound (w : CtrlWorld) (e : OpEv) (h : CtrlBound w) :
    CtrlBound (stepCtrl w e) := by
  obtain ⟨hab, href⟩ := h
  cases e with
  | start op =>
      by_cases hrun : w.running.any (fun p => p.1 == op)
      · simpa [stepCtrl, hrun] using ⟨hab, href⟩
      · cases hr : w.ctrlRef with
        | none =>
            constructor
            · intro c hc
              simp only [stepCtrl, if_neg hrun, hr] at hc ⊢
              exact Nat.lt_succ_of_lt (hab c hc)
            · intro c hc
              simp only [stepCtrl, if_neg hrun, hr] at hc ⊢
              obtain rfl := Option.some_injective _ hc
              exact ⟨Nat.lt_succ_self _, fun hmem => absurd (hab _ hmem) (lt_irrefl _)⟩
        | some c0 =>
            have hc0 := href c0 hr
            constructor
            · intro c hc
              simp only [stepCtrl, if_neg hrun, hr, List.mem_cons] at hc ⊢
              rcases hc with rfl | hc
              · exact Nat.lt_succ_of_lt hc0.1
              · exact Nat.lt_succ_of_lt (hab c hc)
            · intro c hc
              simp only [stepCtrl, if_neg hrun, hr, List.mem_cons] at hc ⊢
              obtain rfl := Option.some_injective _ hc
              refine ⟨Nat.lt_succ_self _, ?_⟩
              rintro (h1 | h1)
              · exact absurd hc0.1 (by rw [h1]; exact lt_irrefl _)
              · exact absurd (hab _ h1) (lt_irrefl _)
  | finish op =>
      by_cases hrun : w.running.any (fun p => p.1 == op)
      · refine ⟨?_, ?_⟩
        · intro c hc
          simp only [stepCtrl, if_pos hrun] at hc ⊢
          exact hab c hc
        · intro c hc
          simp only [stepCtrl, if_pos hrun] at hc
          cases hc
      · simpa [stepCtrl, hrun] using ⟨hab, href⟩

theorem ctrlBound_run (tr : List OpEv) :
    ∀ w, CtrlBound w → CtrlBound (tr.foldl stepCtrl w) := by
  induction tr with
  | nil => intro w hw; simpa using hw
  | cons e r ih => intro w hw; exact ih (stepCtrl w e) (stepCtrl_bound w e hw)

theorem ctrlRef_never_aborted (tr : List OpEv) (c : Nat)
    (h : (runCtrl tr).ctrlRef = some c) : c ∉ (runCtrl tr).aborted := by
  have hbound : CtrlBound (runCtrl tr) :=
    ctrlBound_run tr initCtrl ⟨by simp [initCtrl], by simp [initCtrl]⟩
  exact (hbound.2 c h).2

/-- C3: evaluation of the code at the failing scenario.  Operation 0 is a
prompt-streaming run; operation 1 (a new download-model or
prompt-streaming request) starts mid-stream, aborting controller 0 and
synchronously installing the fresh controller 1 in the shared variable.
From then on every `signal.aborted` guard read of the aborted operation 0
sees controller 1, which is not aborted (`ctrlRef_never_aborted` proves
the shared variable never references an aborted controller on any
schedule) - so the guard evaluates to false at every read.  Feeding that
observation sequence to the streaming loop: a fragment the provider
delivers after the abort is still posted as `chunk`, and when the stream
ends normally `complete` is posted for the aborted operation. -/
theorem promptStreaming_emits_after_abort :
    (runCtrl [.start 0, .start 1]).aborted = [0] ∧
      (runCtrl [.start 0, .start 1]).ctrlRef = some 1 ∧
      (runCtrl [.start 0, .start 1]).aborted.contains 1 = false ∧
      (handlePromptStreaming ⟨true, some ⟨0, none, none⟩, [0], 1⟩
          ["late"] (fun _ => some false) none).2 =
        [SMsg.chunk "late", SMsg.complete] := by
  refine ⟨by decide, by decide, by decide, ?_⟩
  rfl

end UI5Inspector
